import Mathlib

/-!
Verification development for the pharmacy ordering backend.

We give a shallow embedding of the backend's pure logic and state-passing
handlers: the safety/prescription evaluator (`agents/safety_agent.py`), the
refill predictor (`agents/refill_agent.py`), receipt and order-lifecycle logic
(`agents/fulfillment_agent.py`), the stock table (`services/data_service.py`),
the order-confirmation API endpoint (`main.py`) and the conversation
orchestrator's preview/confirm/cancel state machine
(`agents/orchestrator_agent.py`).

Python dictionaries are modelled as association lists over `String` keys,
machine floats for money as exact rationals with explicit rounding to two
decimals, wall-clock timestamps as an abstract `Nat` supplied by the caller,
and outbound network calls (the warehouse webhook) as an explicit outcome
parameter.  LLM calls never feed the logic modelled here: the safety
evaluator, refill predictor and all state handlers are rule-based in the
source.
-/

set_option maxHeartbeats 1000000

namespace PharmaAI

/-! ### Association lists: the model of Python `dict` state -/

/-- Dictionary lookup `d.get(k)` / `d[k]` (first binding wins). -/
def alookup {α : Type} (k : String) : List (String × α) → Option α
  | [] => none
  | kv :: rest => if kv.1 = k then some kv.2 else alookup k rest

/-- Dictionary deletion `del d[k]`: removes every binding of `k`. -/
def aerase {α : Type} (k : String) : List (String × α) → List (String × α)
  | [] => []
  | kv :: rest => if kv.1 = k then aerase k rest else kv :: aerase k rest

/-- Dictionary assignment `d[k] = v`. -/
def ainsert {α : Type} (k : String) (v : α) (l : List (String × α)) :
    List (String × α) :=
  (k, v) :: aerase k l

/-- Update the value stored at the first occurrence of key `k`
(models `df.loc[idx[0], col] = v`, which touches one row). -/
def aupdate {α : Type} (k : String) (v : α) : List (String × α) → List (String × α)
  | [] => []
  | kv :: rest => if kv.1 = k then (k, v) :: rest else kv :: aupdate k v rest

/-- Append `v` to the list stored under `k`, creating the key when absent
(models the `if k not in d: d[k] = []` / `d[k].append(v)` idiom). -/
def aappend {α : Type} (k : String) (v : α) (l : List (String × List α)) :
    List (String × List α) :=
  match alookup k l with
  | none => l ++ [(k, [v])]
  | some vs => aupdate k (vs ++ [v]) l

/-! ### Enumerations (`models/schemas.py`) -/

inductive SafetyDecision
  | APPROVE
  | REJECT
  | CONDITIONAL
deriving DecidableEq, Repr

inductive RefillAction
  | REMIND
  | AUTO_REFILL
  | BLOCK
deriving DecidableEq, Repr

inductive OrderStatus
  | PENDING
  | VALIDATED
  | CONFIRMED
  | PREPARING
  | PROCESSING
  | SHIPPED
  | DELIVERED
  | COMPLETED
  | CANCELLED
  | BLOCKED
  | FAILED
deriving DecidableEq, Repr

/-- The `.value` string of an `OrderStatus` member. -/
def OrderStatus.value : OrderStatus → String
  | .PENDING => "PENDING"
  | .VALIDATED => "VALIDATED"
  | .CONFIRMED => "CONFIRMED"
  | .PREPARING => "PREPARING"
  | .PROCESSING => "PROCESSING"
  | .SHIPPED => "SHIPPED"
  | .DELIVERED => "DELIVERED"
  | .COMPLETED => "COMPLETED"
  | .CANCELLED => "CANCELLED"
  | .BLOCKED => "BLOCKED"
  | .FAILED => "FAILED"

/-! ### Records (`models/schemas.py`) -/

structure Medicine where
  medicine_id : String
  medicine_name : String
  strength : String
  form : String
  stock_level : Int
  prescription_required : Bool
  category : String
  discontinued : Bool
  max_quantity_per_order : Int
  controlled_substance : Bool
deriving DecidableEq, Repr

structure Patient where
  patient_id : String
  patient_name : String
  patient_email : String
  patient_phone : String
deriving DecidableEq, Repr

structure ExtractedEntity where
  medicine : String
  dosage : String
  frequency : String
  quantity : Int
  confidence : ℚ
  raw_text : String
deriving DecidableEq, Repr

structure SafetyCheckResult where
  decision : SafetyDecision
  reasons : List String
  allowed_quantity : Option Int
  requires_followup : Bool
  requires_prescription : Bool
  blocked_items : List String
deriving DecidableEq, Repr

structure OrderItem where
  medicine_id : String
  medicine_name : String
  strength : String
  quantity : Int
  unit_price : ℚ
  prescription_required : Bool
deriving DecidableEq, Repr

structure OrderPreview where
  preview_id : String
  patient_id : String
  patient_name : String
  items : List OrderItem
  total_amount : ℚ
  safety_decision : SafetyDecision
  safety_reasons : List String
  requires_prescription : Bool
  created_at : Nat
deriving DecidableEq, Repr

structure Order where
  order_id : String
  patient_id : String
  patient_name : String
  patient_email : String
  patient_phone : String
  items : List OrderItem
  total_amount : ℚ
  status : OrderStatus
  created_at : Nat
  updated_at : Nat
  prescription_id : Option String
  trace_id : Option String
deriving DecidableEq, Repr

structure OrderStatusUpdate where
  order_id : String
  status : OrderStatus
  message : String
  timestamp : Nat
deriving DecidableEq, Repr

/-- One agent action in an order's timeline (`fulfillment_agent.AgentEvent`). -/
structure AgentEvent where
  agent_name : String
  action : String
  description : String
  status : String
  timestamp : Nat
deriving DecidableEq, Repr

/-! ### Safety & prescription policy agent (`agents/safety_agent.py`) -/

/-- Python truthiness of the `allowed_quantity` variable (`None` and `0` are
falsy, every other integer is truthy).  Used by the guards
`if not allowed_quantity` and `elif requires_followup or allowed_quantity`. -/
def optTruthy : Option Int → Bool
  | none => false
  | some n => n != 0

/-- The defaulted requested quantity
`entity.quantity if entity.quantity > 0 else 30`. -/
def defaultedQty (e : ExtractedEntity) : Int :=
  if e.quantity > 0 then e.quantity else 30

/-- `requested_qty = entity.quantity if entity and entity.quantity > 0 else 30`
(safety_agent.py line 109). -/
def requestedQty : Option ExtractedEntity → Int
  | some e => defaultedQty e
  | none => 30

/-- Mutable accumulator of `SafetyAgent.evaluate`'s per-item loop. -/
structure SafetyState where
  reasons : List String
  blocked_items : List String
  requires_prescription : Bool
  allowed_quantity : Option Int
  requires_followup : Bool
deriving DecidableEq, Repr

def initialSafetyState : SafetyState :=
  { reasons := []
    blocked_items := []
    requires_prescription := false
    allowed_quantity := none
    requires_followup := false }

/-- One iteration of the `for i, medicine in enumerate(matched_medicines)` loop
in `SafetyAgent.evaluate` (safety_agent.py lines 107-142). -/
def checkMedicine (has_prescription : Bool) (m : Medicine)
    (e : Option ExtractedEntity) (st : SafetyState) : SafetyState :=
  let requested_qty := requestedQty e
  if m.discontinued then
    { st with
      blocked_items := st.blocked_items ++ [m.medicine_name]
      reasons := st.reasons ++
        [m.medicine_name ++ " has been discontinued and is no longer available."] }
  else
    let st1 :=
      if m.prescription_required then
        let stp := { st with requires_prescription := true }
        if has_prescription then stp
        else { stp with
          reasons := stp.reasons ++ [m.medicine_name ++ " requires a valid prescription."] }
      else st
    let st2 :=
      if m.controlled_substance then
        { st1 with
          reasons := st1.reasons ++
            [m.medicine_name ++ " is a controlled substance. Special handling required."]
          requires_followup := true }
      else st1
    if m.stock_level = 0 then
      { st2 with
        blocked_items := st2.blocked_items ++ [m.medicine_name]
        reasons := st2.reasons ++ [m.medicine_name ++ " is currently out of stock."] }
    else
      let st3 :=
        if m.stock_level < requested_qty then
          let aq := min m.stock_level m.max_quantity_per_order
          { st2 with
            allowed_quantity := some aq
            reasons := st2.reasons ++
              ["Limited stock available for " ++ m.medicine_name ++
               ". Maximum quantity: " ++ toString aq] }
        else st2
      if requested_qty > m.max_quantity_per_order then
        let st4 :=
          if optTruthy st3.allowed_quantity then st3
          else { st3 with allowed_quantity := some m.max_quantity_per_order }
        { st4 with
          reasons := st4.reasons ++
            ["Maximum quantity per order for " ++ m.medicine_name ++ " is " ++
             toString m.max_quantity_per_order] }
      else st3

/-- The whole per-item loop: matched medicines are paired positionally with
extracted entities (`entities[i] if i < len(entities) else None`). -/
def safetyLoop (has_prescription : Bool) :
    List Medicine → List ExtractedEntity → SafetyState → SafetyState
  | [], _, st => st
  | m :: ms, es, st =>
      safetyLoop has_prescription ms es.tail (checkMedicine has_prescription m es.head? st)

/-- Packaging of the loop state into the returned `SafetyCheckResult`. -/
def mkSafetyResult (d : SafetyDecision) (st : SafetyState) : SafetyCheckResult :=
  { decision := d
    reasons := st.reasons
    allowed_quantity := st.allowed_quantity
    requires_followup := st.requires_followup
    requires_prescription := st.requires_prescription
    blocked_items := st.blocked_items }

/-- `SafetyAgent.evaluate` (safety_agent.py lines 52-169): the per-item rule
loop followed by the decision block at lines 144-154. -/
def SafetyAgent.evaluate (entities : List ExtractedEntity)
    (matched_medicines : List Medicine) (has_prescription : Bool) :
    SafetyCheckResult :=
  let st := safetyLoop has_prescription matched_medicines entities initialSafetyState
  if !st.blocked_items.isEmpty && st.blocked_items.length == matched_medicines.length then
    mkSafetyResult .REJECT st
  else if !st.blocked_items.isEmpty || (st.requires_prescription && !has_prescription) then
    mkSafetyResult .CONDITIONAL st
  else if st.requires_followup || optTruthy st.allowed_quantity then
    mkSafetyResult .CONDITIONAL st
  else
    mkSafetyResult .APPROVE
      { st with reasons := if st.reasons.isEmpty then ["All safety checks passed."] else st.reasons }

/-! ### Sample inputs used by concrete witnesses and counterexamples -/

/-- An extracted entity with unspecified quantity (`quantity: 0`). -/
def eQty0 : ExtractedEntity :=
  { medicine := "Paracetamol", dosage := "", frequency := "", quantity := 0
    confidence := 0, raw_text := "" }

/-- An in-stock medicine whose `max_quantity_per_order` is `0`. -/
def medCapZero : Medicine :=
  { medicine_id := "MED-001", medicine_name := "Paracetamol", strength := "500mg"
    form := "Tablet", stock_level := 50, prescription_required := false
    category := "Analgesic", discontinued := false, max_quantity_per_order := 0
    controlled_substance := false }

/-- Entity requesting 50 units of `medCap20`. -/
def eQty50 : ExtractedEntity :=
  { medicine := "Metformin", dosage := "", frequency := "", quantity := 50
    confidence := 0, raw_text := "" }

/-- Plenty of stock (100) but a per-order cap of 20. -/
def medCap20 : Medicine :=
  { medicine_id := "MED-002", medicine_name := "Metformin", strength := "500mg"
    form := "Tablet", stock_level := 100, prescription_required := false
    category := "Diabetes", discontinued := false, max_quantity_per_order := 20
    controlled_substance := false }

/-- Entity requesting 30 units of `medStock5`. -/
def eQty30 : ExtractedEntity :=
  { medicine := "Aspirin", dosage := "", frequency := "", quantity := 30
    confidence := 0, raw_text := "" }

/-- Only 5 units in stock, per-order cap 30. -/
def medStock5 : Medicine :=
  { medicine_id := "MED-003", medicine_name := "Aspirin", strength := "75mg"
    form := "Tablet", stock_level := 5, prescription_required := false
    category := "Analgesic", discontinued := false, max_quantity_per_order := 30
    controlled_substance := false }

/-- A discontinued medicine. -/
def medDiscontinued : Medicine :=
  { medicine_id := "MED-004", medicine_name := "Ranitidine", strength := "150mg"
    form := "Tablet", stock_level := 40, prescription_required := false
    category := "Antacid", discontinued := true, max_quantity_per_order := 30
    controlled_substance := false }

/-! ### Claim C2: overwriting behaviour of `allowed_quantity` across items -/

/-- A loop state in which an earlier item has already set a cap of 20. -/
def capTwentySt : SafetyState :=
  { initialSafetyState with allowed_quantity := some 20 }

/-! ### Order handler line items (`orchestrator_agent.py` lines 269-298) -/

/-- The fixed price table shared by `_handle_order` and `create_order`. -/
def price_map : List (String × ℚ) :=
  [("Paracetamol", 15/100), ("Metformin", 20/100), ("Atorvastatin", 85/100),
   ("Lisinopril", 55/100), ("Amlodipine", 65/100), ("Omeprazole", 40/100),
   ("Amoxicillin", 35/100), ("Ibuprofen", 20/100), ("Aspirin", 10/100)]

/-- `price_map.get(name, 0.50)`. -/
def priceFor (name : String) : ℚ :=
  (alookup name price_map).getD (1/2)

/-- The line-item quantity computed by `_handle_order`:
`quantity = entity.quantity if entity.quantity > 0 else 30` followed by
`if safety_result.allowed_quantity: quantity = min(quantity, ...)`
(orchestrator_agent.py lines 272-274). -/
def handlerItemQty (e : ExtractedEntity) (aq : Option Int) : Int :=
  let quantity := defaultedQty e
  if optTruthy aq then min quantity (aq.getD 0) else quantity

/-- The preview line items built by `_handle_order` (lines 269-298): entities
are paired positionally with matched medicines, entities beyond the matched
list produce nothing, and unit prices are then resolved from `price_map` with
a 0.50 default. -/
def buildPreviewItems :
    List ExtractedEntity → List Medicine → Option Int → List OrderItem
  | [], _, _ => []
  | _, [], _ => []
  | e :: es, m :: ms, aq =>
      { medicine_id := m.medicine_id
        medicine_name := m.medicine_name
        strength := m.strength
        quantity := handlerItemQty e aq
        unit_price := priceFor m.medicine_name
        prescription_required := m.prescription_required } ::
        buildPreviewItems es ms aq

/-! ### Predictive refill agent (`agents/refill_agent.py`) -/

/-- One row of the medication-history records consumed by
`RefillAgent.predict` (the dict produced by
`DataService.get_medicines_needing_refill`). -/
structure MedRecord where
  medicine_id : String
  medicine : String
  dosage : String
  purchase_date : String
  days_remaining : Int
deriving DecidableEq, Repr

structure RefillPrediction where
  patient_id : String
  patient_name : String
  medicine : String
  medicine_id : String
  days_remaining : Int
  last_purchase_date : String
  action : RefillAction
  justification : String
  urgency : String
deriving DecidableEq, Repr

/-- The per-record classification of `RefillAgent.predict`
(refill_agent.py lines 83-101): action, urgency and justification from
`days_remaining`, or `none` for records with more than 14 days of supply. -/
def classifyRefill (days_remaining : Int) (patient_name : String) :
    Option (RefillAction × String × String) :=
  if days_remaining ≤ 0 then
    some (.BLOCK, "CRITICAL",
      "Medication supply exhausted. " ++ patient_name ++
        "'s prescription may need renewal before refill.")
  else if days_remaining ≤ 3 then
    some (.REMIND, "HIGH",
      "Only " ++ toString days_remaining ++ " days of supply remaining for " ++
        patient_name ++ ". Recommend immediate refill.")
  else if days_remaining ≤ 7 then
    some (.AUTO_REFILL, "MEDIUM",
      "Running low on supply (" ++ toString days_remaining ++
        " days). Auto-refill scheduled for " ++ patient_name ++ ".")
  else if days_remaining ≤ 14 then
    some (.REMIND, "LOW",
      "Supply adequate for " ++ toString days_remaining ++
        " days. Reminder sent to " ++ patient_name ++ " for planning.")
  else
    none

/-- `RefillAgent.predict` (refill_agent.py lines 45-119): one prediction per
history record with at most 14 days remaining. -/
def RefillAgent.predict (patient_id patient_name : String)
    (medication_history : List MedRecord) : List RefillPrediction :=
  medication_history.filterMap fun med =>
    (classifyRefill med.days_remaining patient_name).map fun r =>
      { patient_id := patient_id
        patient_name := patient_name
        medicine := med.medicine
        medicine_id := med.medicine_id
        days_remaining := med.days_remaining
        last_purchase_date := med.purchase_date
        action := r.1
        justification := r.2.2
        urgency := r.2.1 }

/-- A medication-history record with the given days of supply remaining. -/
def recDays (d : Int) : MedRecord :=
  { medicine_id := "MED-001", medicine := "Paracetamol", dosage := "500mg"
    purchase_date := "2024-01-01", days_remaining := d }

/-! ### Money rounding (Python `round(x, 2)`) and receipts
(`agents/fulfillment_agent.py`) -/

/-- Floor of a rational, computed from numerator and denominator. -/
def ratFloor (q : ℚ) : ℤ :=
  Int.fdiv q.num q.den

/-- Round a rational to the nearest integer, ties to the even integer —
the semantics of Python 3's built-in `round`. -/
def roundHalfEven (q : ℚ) : ℤ :=
  let f := ratFloor q
  let r := q - (f : ℚ)
  if r < 1/2 then f
  else if 1/2 < r then f + 1
  else if f % 2 = 0 then f else f + 1

/-- `round(x, 2)`: round to two decimal places. -/
def round2 (q : ℚ) : ℚ :=
  ((roundHalfEven (q * 100) : ℤ) : ℚ) / 100

/-- Python slice `s[-n:]`. -/
def lastChars (n : Nat) (s : String) : String :=
  s.drop (s.length - n)

structure ReceiptItem where
  medicine : String
  strength : String
  quantity : Int
  unit_price : ℚ
  total : ℚ
deriving DecidableEq, Repr

/-- The receipt dict returned by `FulfillmentAgent.generate_receipt`
(the `order_date` and `issued_at` wall-clock strings are abstracted away). -/
structure Receipt where
  receipt_number : String
  order_id : String
  patient_name : String
  patient_id : String
  patient_email : String
  patient_phone : String
  items : List ReceiptItem
  subtotal : ℚ
  tax : ℚ
  delivery_fee : ℚ
  grand_total : ℚ
  payment_status : String
  delivery_status : String
  estimated_delivery : String
  thank_you_message : String
deriving DecidableEq, Repr

/-- `FulfillmentAgent.generate_receipt` (fulfillment_agent.py lines 306-344). -/
def FulfillmentAgent.generate_receipt (order : Order) : Receipt :=
  let subtotal := order.total_amount
  let tax := round2 (subtotal * (5/100))
  let delivery_fee : ℚ := 2
  let grand_total := round2 (subtotal + tax + delivery_fee)
  { receipt_number := "RCP-" ++ lastChars 6 order.order_id
    order_id := order.order_id
    patient_name := order.patient_name
    patient_id := order.patient_id
    patient_email := order.patient_email
    patient_phone := order.patient_phone
    items := order.items.map fun item =>
      { medicine := item.medicine_name
        strength := item.strength
        quantity := item.quantity
        unit_price := item.unit_price
        total := round2 (item.unit_price * item.quantity) }
    subtotal := subtotal
    tax := tax
    delivery_fee := delivery_fee
    grand_total := grand_total
    payment_status := "Paid"
    delivery_status := "Preparing"
    estimated_delivery := "1-2 business days"
    thank_you_message := "Thank you, " ++ order.patient_name ++
      "! Your order is being prepared. You'll receive updates via email." }

/-- An order whose subtotal is exactly 100.00. -/
def sampleOrder100 : Order :=
  { order_id := "ORD-20240101-ABC123", patient_id := "PAT-001"
    patient_name := "Alice", patient_email := "alice@example.com"
    patient_phone := "+10000000000", items := [], total_amount := 100
    status := .PENDING, created_at := 0, updated_at := 0
    prescription_id := none, trace_id := none }

/-! ### Fulfillment and data-service stores -/

/-- The in-memory state of the `FulfillmentAgent` singleton:
`self.orders`, `self.order_history`, `self.order_events`. -/
structure FulfillmentState where
  orders : List (String × Order)
  order_history : List (String × List OrderStatusUpdate)
  order_events : List (String × List AgentEvent)
deriving DecidableEq, Repr

/-- `FulfillmentAgent.add_event` (fulfillment_agent.py lines 41-48). -/
def FulfillmentAgent.add_event (order_id agent_name action description status : String)
    (now : Nat) (f : FulfillmentState) : FulfillmentState :=
  { f with
    order_events :=
      aappend order_id ⟨agent_name, action, description, status, now⟩ f.order_events }

/-- `FulfillmentAgent.get_events` (lines 50-54): `[]` for unknown orders. -/
def getEvents (order_id : String) (f : FulfillmentState) : List AgentEvent :=
  (alookup order_id f.order_events).getD []

/-- `FulfillmentAgent.update_order_status` (lines 232-257): unknown order ids
are left untouched (the method returns `None`). -/
def FulfillmentAgent.update_order_status (order_id : String) (status : OrderStatus)
    (message : String) (now : Nat) (f : FulfillmentState) : FulfillmentState :=
  match alookup order_id f.orders with
  | none => f
  | some o =>
      { f with
        orders := aupdate order_id { o with status := status, updated_at := now } f.orders
        order_history :=
          aappend order_id ⟨order_id, status, message, now⟩ f.order_history }

/-- `FulfillmentAgent.create_order` (lines 56-133); the generated
`ORD-<date>-<random>` id is passed in explicitly. -/
def FulfillmentAgent.create_order (order_id : String) (patient : Patient)
    (items : List OrderItem) (now : Nat) (f : FulfillmentState) :
    Order × FulfillmentState :=
  let priced := items.map fun item =>
    if item.unit_price = 0 then { item with unit_price := priceFor item.medicine_name }
    else item
  let total := priced.foldl (fun acc item => acc + item.unit_price * (item.quantity : ℚ)) 0
  let order : Order :=
    { order_id := order_id
      patient_id := patient.patient_id
      patient_name := patient.patient_name
      patient_email := patient.patient_email
      patient_phone := patient.patient_phone
      items := priced
      total_amount := round2 total
      status := .PENDING
      created_at := now
      updated_at := now
      prescription_id := none
      trace_id := none }
  let f1 :=
    { f with
      orders := ainsert order_id order f.orders
      order_history :=
        ainsert order_id
          [⟨order_id, .PENDING, "Order created for " ++ patient.patient_name, now⟩]
          f.order_history }
  (order,
    FulfillmentAgent.add_event order_id "Conversational Ordering Agent"
      "Order Requested" "Order initiated via conversation" "completed" now f1)

/-- `FulfillmentAgent.record_safety_validation` (lines 135-160). -/
def FulfillmentAgent.record_safety_validation (order_id : String)
    (decision : SafetyDecision) (reasons : List String) (now : Nat)
    (f : FulfillmentState) : FulfillmentState :=
  match decision with
  | .APPROVE =>
      FulfillmentAgent.add_event order_id "Safety & Policy Agent"
        "AI Safety Validation" "Prescription verified and approved" "completed" now f
  | .CONDITIONAL =>
      FulfillmentAgent.add_event order_id "Safety & Policy Agent"
        "AI Safety Validation"
        ("Conditional approval: " ++ (reasons.head?.getD "Conditions apply"))
        "completed" now f
  | .REJECT =>
      FulfillmentAgent.add_event order_id "Safety & Policy Agent" "Blocked by AI"
        ("Blocked: " ++ (reasons.head?.getD "Safety check failed")) "blocked" now f

/-- `FulfillmentAgent.record_order_confirmed` (lines 162-170). -/
def FulfillmentAgent.record_order_confirmed (order_id : String) (now : Nat)
    (f : FulfillmentState) : FulfillmentState :=
  FulfillmentAgent.add_event order_id "Safety & Policy Agent" "AI Order Confirmed"
    "AI validated and confirmed order" "completed" now f

/-- `FulfillmentAgent.record_inventory_updated` (lines 172-180). -/
def FulfillmentAgent.record_inventory_updated (order_id : String) (quantity : Int)
    (now : Nat) (f : FulfillmentState) : FulfillmentState :=
  FulfillmentAgent.add_event order_id "Inventory & Fulfillment Agent"
    "Inventory Updated" ("Stock reduced by " ++ toString quantity ++ " units")
    "completed" now f

/-- `FulfillmentAgent.record_fulfillment_initiated` (lines 182-190). -/
def FulfillmentAgent.record_fulfillment_initiated (order_id : String) (now : Nat)
    (f : FulfillmentState) : FulfillmentState :=
  FulfillmentAgent.add_event order_id "Inventory & Fulfillment Agent"
    "Fulfillment Initiated" "Warehouse notified for fulfillment" "completed" now f

/-- Outcome of the outbound POST to the warehouse webhook: an HTTP status
code, or a raised network error. -/
inductive WebhookResult
  | status (code : Nat)
  | netError
deriving DecidableEq, Repr

/-- `FulfillmentAgent.trigger_warehouse_webhook` (lines 259-304): only a 200
response advances the order to PROCESSING and appends the "Dispatched"
timeline event; every other status code and every network error is swallowed
(logged) with no state change. -/
def FulfillmentAgent.trigger_warehouse_webhook (order : Order)
    (res : WebhookResult) (now : Nat) (f : FulfillmentState) : FulfillmentState :=
  match res with
  | .status code =>
      if code = 200 then
        FulfillmentAgent.add_event order.order_id "System" "Dispatched"
          "Package dispatched from warehouse" "completed" now
          (FulfillmentAgent.update_order_status order.order_id .PROCESSING
            "Order sent to warehouse for fulfillment" now f)
      else f
  | .netError => f

/-- `DataService.update_stock` (data_service.py lines 146-167) acting on the
stock column of the medicine table: unknown ids are rejected with `False`;
known ids are clamped at zero and the call returns `True`. -/
def DataService.update_stock (medicine_id : String) (quantity_sold : Int)
    (stock : List (String × Int)) : Bool × List (String × Int) :=
  match alookup medicine_id stock with
  | none => (false, stock)
  | some current_stock =>
      (true, aupdate medicine_id (max 0 (current_stock - quantity_sold)) stock)

/-- One row appended to the order-history table by `DataService.add_order`
as called from the confirmation handler. -/
structure OrderRow where
  order_id : String
  patient_id : String
  medicine : String
  medicine_id : String
  dosage : String
  quantity : Int
  supply_days : Int
  order_status : String
deriving DecidableEq, Repr

/-- The shared backend stores: the fulfillment agent's maps, the medicine
stock table, the order-history rows, and the queue of warehouse-webhook
dispatches scheduled as background tasks. -/
structure StoreState where
  ful : FulfillmentState
  stock : List (String × Int)
  order_rows : List OrderRow
  webhook_tasks : List String
deriving DecidableEq, Repr

/-- Result of an API endpoint: a JSON payload or an `HTTPException`. -/
inductive ApiResult
  | ok (order_id : String)
  | httpError (code : Nat) (detail : String)
deriving DecidableEq, Repr

/-- `POST /api/orders/{order_id}/confirm` (main.py lines 195-219). -/
def confirmOrderEndpoint (order_id : String) (now : Nat) (st : StoreState) :
    ApiResult × StoreState :=
  match alookup order_id st.ful.orders with
  | none => (.httpError 404 "Order not found", st)
  | some order =>
      if order.status = OrderStatus.PENDING then
        let f1 := FulfillmentAgent.update_order_status order_id .CONFIRMED
          "Order confirmed" now st.ful
        let stock1 := order.items.foldl
          (fun s item => (DataService.update_stock item.medicine_id item.quantity s).2)
          st.stock
        let f2 := FulfillmentAgent.update_order_status order_id .PREPARING
          "Preparing order" now f1
        (.ok order_id,
          { st with
            ful := f2
            stock := stock1
            webhook_tasks := st.webhook_tasks ++ [order_id] })
      else
        (.httpError 400 ("Order is not pending. Current status: " ++ order.status.value),
          st)

/-- An order whose status is already CANCELLED. -/
def cancelledOrder : Order :=
  { sampleOrder100 with order_id := "ORD-20240101-CANCEL", status := .CANCELLED }

/-- A backend store holding only `cancelledOrder` and one stock row. -/
def storeWithCancelled : StoreState :=
  { ful := { orders := [("ORD-20240101-CANCEL", cancelledOrder)]
             order_history := []
             order_events := [] }
    stock := [("MED-001", 50)]
    order_rows := []
    webhook_tasks := [] }

/-! ### Conversation orchestrator state (`agents/orchestrator_agent.py`)

The orchestrator singleton holds `self.pending_previews` (preview id →
preview) and `self.session_contexts` (session id → pending preview id) next
to the shared backend stores.  The LLM-driven parts of a turn (intent
classification, entity extraction, catalog matching, safety evaluation and
reply formatting) happen before the state mutations modelled here; the
`order` operation therefore carries the resulting preview as a parameter,
and the early-return branches of `_handle_order` (clarification, no match,
REJECT) are the state-preserving `orderNoop`. -/

structure PharmacyState where
  pendingPreviews : List (String × OrderPreview)
  sessionContexts : List (String × String)
  store : StoreState
deriving DecidableEq, Repr

def emptyStore : StoreState :=
  { ful := { orders := [], order_history := [], order_events := [] }
    stock := [], order_rows := [], webhook_tasks := [] }

def emptyPharmacy : PharmacyState :=
  { pendingPreviews := [], sessionContexts := [], store := emptyStore }

/-- The subset of `ChatResponse` relevant to the state machine (the echoed
pipeline fields and trace URL are abstracted away). -/
structure ChatResponse where
  message : String
  order : Option Order
  requires_confirmation : Bool
deriving DecidableEq, Repr

/-- `OrchestratorAgent._generate_preview_id`: `"PRV-" + <8 hex chars>`; the
random suffix is a parameter. -/
def generatePreviewId (suffix : String) : String :=
  "PRV-" ++ suffix

/-- The state mutation of `_handle_order`'s success path (orchestrator lines
314-316): store the preview and bind the session to it. -/
def handleOrderStore (session_id : String) (pid_suffix : String)
    (preview : OrderPreview) (st : PharmacyState) : PharmacyState :=
  { st with
    pendingPreviews :=
      ainsert (generatePreviewId pid_suffix) preview st.pendingPreviews
    sessionContexts :=
      ainsert session_id (generatePreviewId pid_suffix) st.sessionContexts }

/-- The reply of `_handle_order_confirmation` when no pending preview is
bound to the session (orchestrator lines 340-344). -/
def nothingToConfirmReply : ChatResponse :=
  { message := "I don't see any pending order to confirm. Would you like to place a new order?"
    order := none
    requires_confirmation := false }

/-- The backend-store side effects of a successful confirmation
(orchestrator lines 348-406): order creation, the
VALIDATED → CONFIRMED → PROCESSING status drive with one timeline event per
step, the per-item stock decrement, the awaited warehouse webhook, the
order-history rows and the receipt notification event. -/
def confirmStoreEffects (patient : Patient) (preview : OrderPreview)
    (order_id : String) (now : Nat) (wres : WebhookResult) (st : StoreState) :
    Order × StoreState :=
  let create := FulfillmentAgent.create_order order_id patient preview.items now st.ful
  let order := create.1
  let f1 := FulfillmentAgent.record_safety_validation order.order_id
    preview.safety_decision preview.safety_reasons now create.2
  let f2 := FulfillmentAgent.update_order_status order.order_id .VALIDATED
    "Safety validation completed" now f1
  let f3 := FulfillmentAgent.record_order_confirmed order.order_id now f2
  let f4 := FulfillmentAgent.update_order_status order.order_id .CONFIRMED
    "Order confirmed by patient" now f3
  let stock1 := order.items.foldl
    (fun s item => (DataService.update_stock item.medicine_id item.quantity s).2)
    st.stock
  let total_quantity := order.items.foldl (fun n item => n + item.quantity) 0
  let f5 := FulfillmentAgent.record_inventory_updated order.order_id
    total_quantity now f4
  let f6 := FulfillmentAgent.record_fulfillment_initiated order.order_id now f5
  let f7 := FulfillmentAgent.update_order_status order.order_id .PROCESSING
    "Order is being processed for delivery" now f6
  let f8 := FulfillmentAgent.trigger_warehouse_webhook order wres now f7
  let rows := st.order_rows ++ order.items.map fun item =>
    { order_id := order.order_id
      patient_id := patient.patient_id
      medicine := item.medicine_name
      medicine_id := item.medicine_id
      dosage := item.strength
      quantity := item.quantity
      supply_days := 30
      order_status := "PROCESSING" : OrderRow }
  let f9 := FulfillmentAgent.add_event order.order_id "System" "Notifications Sent"
    ("Receipt sent to " ++ patient.patient_email ++ " and " ++ patient.patient_phone)
    "completed" now f8
  (order,
    { ful := f9, stock := stock1, order_rows := rows
      webhook_tasks := st.webhook_tasks })

/-- `OrchestratorAgent._handle_order_confirmation` (lines 335-439).  The
guard mirrors `if not preview_id or preview_id not in self.pending_previews`
(an empty preview id is falsy); on success the preview binding and record
are both deleted (lines 408-411).  The formatted confirmation text is
abstracted to a stub mentioning the order id. -/
def handleOrderConfirmation (session_id : String) (patient : Patient)
    (order_id : String) (now : Nat) (wres : WebhookResult)
    (st : PharmacyState) : ChatResponse × PharmacyState :=
  match alookup session_id st.sessionContexts with
  | none => (nothingToConfirmReply, st)
  | some preview_id =>
      if preview_id = "" then (nothingToConfirmReply, st)
      else
        match alookup preview_id st.pendingPreviews with
        | none => (nothingToConfirmReply, st)
        | some preview =>
            let run := confirmStoreEffects patient preview order_id now wres st.store
            ({ message := "Order Confirmed: " ++ run.1.order_id
               order := some run.1
               requires_confirmation := false },
              { pendingPreviews := aerase preview_id st.pendingPreviews
                sessionContexts := aerase session_id st.sessionContexts
                store := run.2 })

/-- `OrchestratorAgent._handle_order_cancellation` (lines 441-454). -/
def handleOrderCancellation (session_id : String) (st : PharmacyState) :
    ChatResponse × PharmacyState :=
  let st1 :=
    match alookup session_id st.sessionContexts with
    | some preview_id =>
        if preview_id ≠ "" ∧ (alookup preview_id st.pendingPreviews).isSome then
          { st with pendingPreviews := aerase preview_id st.pendingPreviews }
        else st
    | none => st
  let st2 :=
    if (alookup session_id st1.sessionContexts).isSome then
      { st1 with sessionContexts := aerase session_id st1.sessionContexts }
    else st1
  ({ message := "Your order has been cancelled. Is there anything else I can help you with?"
     order := none
     requires_confirmation := false }, st2)

/-- One orchestrator handler invocation touching per-session preview state. -/
inductive OrchOp
  | order (session_id pid_suffix : String) (preview : OrderPreview)
  | orderNoop
  | confirm (session_id : String) (patient : Patient) (order_id : String)
      (now : Nat) (wres : WebhookResult)
  | cancel (session_id : String)
deriving DecidableEq, Repr

def applyOp (st : PharmacyState) : OrchOp → PharmacyState
  | .order s suf p => handleOrderStore s suf p st
  | .orderNoop => st
  | .confirm s pa oid now wres => (handleOrderConfirmation s pa oid now wres st).2
  | .cancel s => (handleOrderCancellation s st).2

def applyOps (ops : List OrchOp) : PharmacyState :=
  ops.foldl applyOp emptyPharmacy

/-- Number of live previews of a session: context bindings of the session
whose preview id is present in the preview store. -/
def liveCount (session_id : String) (st : PharmacyState) : Nat :=
  (st.sessionContexts.filter fun kv =>
    kv.1 == session_id && (alookup kv.2 st.pendingPreviews).isSome).length

def keysNodup {α : Type} (l : List (String × α)) : Prop :=
  (l.map Prod.fst).Nodup

/-- Inductive invariant of reachable orchestrator states: the session-context
dict has no duplicate keys, its values are generated (non-empty) preview ids,
and the preview store is keyed by generated (non-empty) ids. -/
def OrchInv (st : PharmacyState) : Prop :=
  keysNodup st.sessionContexts ∧
  (∀ kv ∈ st.sessionContexts, kv.2 ≠ "") ∧
  (∀ kv ∈ st.pendingPreviews, kv.1 ≠ "")

/-- Sample preview and patient for the concrete state-machine runs. -/
def previewSample : OrderPreview :=
  { preview_id := "PRV-AB12CD34", patient_id := "PAT-001"
    patient_name := "Alice", items := [], total_amount := 0
    safety_decision := .APPROVE, safety_reasons := []
    requires_prescription := false, created_at := 0 }

def alicePatient : Patient :=
  { patient_id := "PAT-001", patient_name := "Alice"
    patient_email := "alice@example.com", patient_phone := "+10000000000" }

/-! ### Claim C1: final-decision rules of the safety evaluator -/

/-- C1 (amended): for every non-empty list of matched items, the decision is
REJECT iff the number of blocked items equals the number of matched items;
otherwise CONDITIONAL iff some item is blocked, or a prescription is required
and absent, or follow-up is required, or an allowed-quantity cap was set to a
*nonzero* value (a cap of exactly 0 is falsy in the source and treated as
unset); otherwise APPROVE, and an APPROVE reached with no accumulated reasons
carries the single reason "All safety checks passed.". -/
theorem safety_decision_characterization
    (entities : List ExtractedEntity) (ms : List Medicine) (hp : Bool)
    (hne : ms ≠ []) :
    ((SafetyAgent.evaluate entities ms hp).decision = .REJECT ↔
      (SafetyAgent.evaluate entities ms hp).blocked_items.length = ms.length) ∧
    ((SafetyAgent.evaluate entities ms hp).decision = .CONDITIONAL ↔
      ((SafetyAgent.evaluate entities ms hp).blocked_items.length ≠ ms.length ∧
        ((SafetyAgent.evaluate entities ms hp).blocked_items ≠ [] ∨
          ((SafetyAgent.evaluate entities ms hp).requires_prescription = true ∧ hp = false) ∨
          (SafetyAgent.evaluate entities ms hp).requires_followup = true ∨
          optTruthy (SafetyAgent.evaluate entities ms hp).allowed_quantity = true))) ∧
    ((SafetyAgent.evaluate entities ms hp).decision = .APPROVE ↔
      ((SafetyAgent.evaluate entities ms hp).blocked_items = [] ∧
        ¬((SafetyAgent.evaluate entities ms hp).requires_prescription = true ∧ hp = false) ∧
        (SafetyAgent.evaluate entities ms hp).requires_followup = false ∧
        optTruthy (SafetyAgent.evaluate entities ms hp).allowed_quantity = false)) ∧
    ((SafetyAgent.evaluate entities ms hp).decision = .APPROVE →
      (SafetyAgent.evaluate entities ms hp).reasons ≠ []) ∧
    ((SafetyAgent.evaluate entities ms hp).decision = .APPROVE →
      (safetyLoop hp ms entities initialSafetyState).reasons = [] →
      (SafetyAgent.evaluate entities ms hp).reasons = ["All safety checks passed."]) := by
  have hms : ms.length ≠ 0 := fun h => hne (List.length_eq_zero.mp h)
  unfold SafetyAgent.evaluate
  generalize safetyLoop hp ms entities initialSafetyState = st
  dsimp only
  split_ifs with h1 h2 h3 h4
  · simp only [Bool.and_eq_true, Bool.not_eq_true', List.isEmpty_eq_false,
      beq_iff_eq] at h1
    simp only [mkSafetyResult]
    refine ⟨?_, ?_, ?_, ?_, ?_⟩
    · simp [h1.2]
    · constructor
      · intro h; cases h
      · rintro ⟨hlen, _⟩; exact absurd h1.2 hlen
    · constructor
      · intro h; cases h
      · rintro ⟨hblk, _⟩; exact absurd hblk h1.1
    · intro h; cases h
    · intro h; cases h
  · simp only [Bool.and_eq_true, Bool.not_eq_true', List.isEmpty_eq_false,
      beq_iff_eq, not_and] at h1
    simp only [Bool.or_eq_true, Bool.not_eq_true', List.isEmpty_eq_false,
      Bool.and_eq_true] at h2
    simp only [mkSafetyResult]
    have hlen : st.blocked_items.length ≠ ms.length := by
      by_cases hb : st.blocked_items = []
      · rw [hb]; simpa using fun h => hms h.symm
      · exact h1 hb
    refine ⟨?_, ?_, ?_, ?_, ?_⟩
    · constructor
      · intro h; cases h
      · intro hl; exact absurd hl hlen
    · constructor
      · intro _
        refine ⟨hlen, ?_⟩
        rcases h2 with hb | hpp
        · exact Or.inl hb
        · exact Or.inr (Or.inl hpp)
      · intro _; trivial
    · constructor
      · intro h; cases h
      · rintro ⟨hblk, hpr, _, _⟩
        rcases h2 with hb | hpp
        · exact (hb hblk).elim
        · exact (hpr hpp).elim
    · intro h; cases h
    · intro h; cases h
  · simp only [Bool.and_eq_true, Bool.not_eq_true', List.isEmpty_eq_false,
      beq_iff_eq, not_and] at h1
    simp only [Bool.or_eq_true, Bool.not_eq_true', List.isEmpty_eq_false,
      Bool.and_eq_true, not_or] at h2
    simp only [Bool.or_eq_true] at h3
    obtain ⟨hblk, hpr⟩ := h2
    have hblknil : st.blocked_items = [] := not_not.mp hblk
    simp only [mkSafetyResult]
    have hlen : st.blocked_items.length ≠ ms.length := by
      rw [hblknil]; simpa using fun h => hms h.symm
    refine ⟨?_, ?_, ?_, ?_, ?_⟩
    · constructor
      · intro h; cases h
      · intro hl; exact absurd hl hlen
    · constructor
      · intro _
        refine ⟨hlen, ?_⟩
        rcases h3 with hf | ha
        · exact Or.inr (Or.inr (Or.inl hf))
        · exact Or.inr (Or.inr (Or.inr ha))
      · intro _; trivial
    · constructor
      · intro h; cases h
      · rintro ⟨_, _, hfu, haq⟩
        rcases h3 with hf | ha
        · rw [hfu] at hf; cases hf
        · rw [haq] at ha; cases ha
    · intro h; cases h
    · intro h; cases h
  · simp only [Bool.and_eq_true, Bool.not_eq_true', List.isEmpty_eq_false,
      beq_iff_eq, not_and] at h1
    simp only [Bool.or_eq_true, Bool.not_eq_true', List.isEmpty_eq_false,
      Bool.and_eq_true, not_or] at h2
    simp only [Bool.or_eq_true, not_or, Bool.not_eq_true] at h3
    obtain ⟨hblk, hpr⟩ := h2
    obtain ⟨hfu, haq⟩ := h3
    have hblknil : st.blocked_items = [] := not_not.mp hblk
    simp only [mkSafetyResult]
    have hlen : st.blocked_items.length ≠ ms.length := by
      rw [hblknil]; simpa using fun h => hms h.symm
    refine ⟨?_, ?_, ?_, ?_, ?_⟩
    · constructor
      · intro h; cases h
      · intro hl; exact absurd hl hlen
    · constructor
      · intro h; cases h
      · rintro ⟨_, hb | hrp | hf | ha⟩
        · exact (hb hblknil).elim
        · exact (hpr hrp).elim
        · rw [hfu] at hf; cases hf
        · rw [haq] at ha; cases ha
    · constructor
      · intro _
        exact ⟨hblknil, hpr, hfu, haq⟩
      · intro _; trivial
    · intro _
      simp
    · intro _ _
      trivial
  · simp only [Bool.and_eq_true, Bool.not_eq_true', List.isEmpty_eq_false,
      beq_iff_eq, not_and] at h1
    simp only [Bool.or_eq_true, Bool.not_eq_true', List.isEmpty_eq_false,
      Bool.and_eq_true, not_or] at h2
    simp only [Bool.or_eq_true, not_or, Bool.not_eq_true] at h3
    simp only [Bool.not_eq_true] at h4
    obtain ⟨hblk, hpr⟩ := h2
    obtain ⟨hfu, haq⟩ := h3
    have hblknil : st.blocked_items = [] := not_not.mp hblk
    simp only [mkSafetyResult]
    have hlen : st.blocked_items.length ≠ ms.length := by
      rw [hblknil]; simpa using fun h => hms h.symm
    refine ⟨?_, ?_, ?_, ?_, ?_⟩
    · constructor
      · intro h; cases h
      · intro hl; exact absurd hl hlen
    · constructor
      · intro h; cases h
      · rintro ⟨_, hb | hrp | hf | ha⟩
        · exact (hb hblknil).elim
        · exact (hpr hrp).elim
        · rw [hfu] at hf; cases hf
        · rw [haq] at ha; cases ha
    · constructor
      · intro _
        exact ⟨hblknil, hpr, hfu, haq⟩
      · intro _; trivial
    · intro _
      exact List.isEmpty_eq_false.mp h4
    · intro _ h
      rw [h] at h4
      cases h4

/-- C1 counterexample to the claim as stated: a single in-stock medicine with
`max_quantity_per_order = 0` and an unspecified requested quantity gets an
allowed-quantity cap of `0` recorded in the result, yet the decision is
APPROVE, not CONDITIONAL — a cap of `0` is falsy in `elif requires_followup
or allowed_quantity`. -/
theorem safety_cap_zero_approve_cex :
    (SafetyAgent.evaluate [eQty0] [medCapZero] false).allowed_quantity = some 0 ∧
    (SafetyAgent.evaluate [eQty0] [medCapZero] false).blocked_items = [] ∧
    (SafetyAgent.evaluate [eQty0] [medCapZero] false).requires_prescription = false ∧
    (SafetyAgent.evaluate [eQty0] [medCapZero] false).requires_followup = false ∧
    (SafetyAgent.evaluate [eQty0] [medCapZero] false).decision = SafetyDecision.APPROVE ∧
    (SafetyAgent.evaluate [eQty0] [medCapZero] false).decision ≠ SafetyDecision.CONDITIONAL := by
  decide

/-- Closed instance of `safety_decision_characterization` at a concrete
non-empty input, with the hypothesis discharged by `decide`. -/
theorem safety_decision_characterization_witness :
    (([medCapZero] : List Medicine) ≠ []) ∧
    (((SafetyAgent.evaluate [eQty0] [medCapZero] false).decision = .REJECT ↔
      (SafetyAgent.evaluate [eQty0] [medCapZero] false).blocked_items.length =
        ([medCapZero] : List Medicine).length) ∧
    ((SafetyAgent.evaluate [eQty0] [medCapZero] false).decision = .CONDITIONAL ↔
      ((SafetyAgent.evaluate [eQty0] [medCapZero] false).blocked_items.length ≠
          ([medCapZero] : List Medicine).length ∧
        ((SafetyAgent.evaluate [eQty0] [medCapZero] false).blocked_items ≠ [] ∨
          ((SafetyAgent.evaluate [eQty0] [medCapZero] false).requires_prescription = true ∧
            false = false) ∨
          (SafetyAgent.evaluate [eQty0] [medCapZero] false).requires_followup = true ∨
          optTruthy (SafetyAgent.evaluate [eQty0] [medCapZero] false).allowed_quantity = true))) ∧
    ((SafetyAgent.evaluate [eQty0] [medCapZero] false).decision = .APPROVE ↔
      ((SafetyAgent.evaluate [eQty0] [medCapZero] false).blocked_items = [] ∧
        ¬((SafetyAgent.evaluate [eQty0] [medCapZero] false).requires_prescription = true ∧
          false = false) ∧
        (SafetyAgent.evaluate [eQty0] [medCapZero] false).requires_followup = false ∧
        optTruthy (SafetyAgent.evaluate [eQty0] [medCapZero] false).allowed_quantity = false)) ∧
    ((SafetyAgent.evaluate [eQty0] [medCapZero] false).decision = .APPROVE →
      (SafetyAgent.evaluate [eQty0] [medCapZero] false).reasons ≠ []) ∧
    ((SafetyAgent.evaluate [eQty0] [medCapZero] false).decision = .APPROVE →
      (safetyLoop false [medCapZero] [eQty0] initialSafetyState).reasons = [] →
      (SafetyAgent.evaluate [eQty0] [medCapZero] false).reasons =
        ["All safety checks passed."])) :=
  ⟨by decide, safety_decision_characterization [eQty0] [medCapZero] false (by decide)⟩

/-- C2 (amended): within one evaluation pass, the stock-shortfall check always
overwrites `allowed_quantity` (line 135 assigns unconditionally), while the
max-per-order check does not overwrite an already-set truthy value (line 140
guards with `if not allowed_quantity`).  So the *last* stock-shortfall item
wins, not the first triggering item. -/
theorem allowed_quantity_overwrite_rules
    (hp : Bool) (m : Medicine) (e : Option ExtractedEntity) (st : SafetyState) :
    (m.discontinued = false → m.stock_level ≠ 0 →
      m.stock_level < requestedQty e →
      (checkMedicine hp m e st).allowed_quantity =
        some (min m.stock_level m.max_quantity_per_order)) ∧
    (optTruthy st.allowed_quantity = true →
      ¬(m.stock_level < requestedQty e) →
      (checkMedicine hp m e st).allowed_quantity = st.allowed_quantity) := by
  constructor
  · intro hdisc hstock hshort
    unfold checkMedicine
    dsimp only
    rcases le_total m.stock_level m.max_quantity_per_order with hmin | hmin
    · rw [min_eq_left hmin]
      split_ifs <;> simp_all [optTruthy]
    · rw [min_eq_right hmin]
      split_ifs <;> simp_all [optTruthy]
  · intro htruthy hshort
    unfold checkMedicine
    dsimp only
    split_ifs <;> simp_all [optTruthy]

/-- C2 counterexample to the claim as stated: the first item to trigger a cap
check (`medCap20`, max-per-order 20 against a request of 50) computes cap 20,
as the single-item run shows; but with a second item whose stock shortfall
triggers (stock 5 against a request of 30), the returned `allowed_quantity`
is 5, not the first item's 20 — the later shortfall overwrote it. -/
theorem allowed_quantity_first_wins_cex :
    (SafetyAgent.evaluate [eQty50] [medCap20] false).allowed_quantity = some 20 ∧
    (SafetyAgent.evaluate [eQty50, eQty30] [medCap20, medStock5] false).allowed_quantity =
      some 5 ∧
    (some (5 : Int) ≠ some (20 : Int)) := by
  decide

/-- Closed instance of `allowed_quantity_overwrite_rules`: a shortfall item
overwrites a previously set cap of 20 with 5, while a max-per-order-only item
leaves the set cap of 20 alone. -/
theorem allowed_quantity_overwrite_rules_witness :
    (medStock5.discontinued = false ∧ medStock5.stock_level ≠ 0 ∧
      medStock5.stock_level < requestedQty (some eQty30) ∧
      (checkMedicine false medStock5 (some eQty30) capTwentySt).allowed_quantity =
        some (min medStock5.stock_level medStock5.max_quantity_per_order)) ∧
    (optTruthy capTwentySt.allowed_quantity = true ∧
      ¬(medCap20.stock_level < requestedQty (some eQty50)) ∧
      (checkMedicine false medCap20 (some eQty50) capTwentySt).allowed_quantity =
        capTwentySt.allowed_quantity) :=
  ⟨⟨by decide, by decide, by decide,
    (allowed_quantity_overwrite_rules false medStock5 (some eQty30) capTwentySt).1
      (by decide) (by decide) (by decide)⟩,
   ⟨by decide, by decide,
    (allowed_quantity_overwrite_rules false medCap20 (some eQty50) capTwentySt).2
      (by decide) (by decide)⟩⟩

/-! ### Claim C8: quantity defaulting and cap application -/

/-- C8 (amended): an entity with quantity 0 (or any non-positive quantity) is
given a requested quantity of 30 by both the order handler and the safety
evaluator; when the safety decision carries a *nonzero* `allowed_quantity`
cap, every line item's quantity is `min` of the defaulted quantity and the
cap (a cap of exactly 0 is falsy and is not applied); and every line item's
quantity is positive provided any set cap value is positive. -/
theorem quantity_defaulting_and_cap
    (e : ExtractedEntity) (aq : Option Int) :
    (e.quantity ≤ 0 → defaultedQty e = 30 ∧ requestedQty (some e) = 30 ∧
      handlerItemQty e none = 30) ∧
    (∀ c : Int, c ≠ 0 → handlerItemQty e (some c) = min (defaultedQty e) c) ∧
    ((∀ c : Int, aq = some c → 0 < c) → 0 < handlerItemQty e aq) ∧
    (∀ (es : List ExtractedEntity) (ms : List Medicine) (item : OrderItem),
      (∀ c : Int, aq = some c → 0 < c) →
      item ∈ buildPreviewItems es ms aq → 0 < item.quantity) := by
  have hqpos : ∀ (e' : ExtractedEntity) (a : Option Int),
      (∀ c : Int, a = some c → 0 < c) → 0 < handlerItemQty e' a := by
    intro e' a hc
    unfold handlerItemQty defaultedQty
    dsimp only
    cases a with
    | none => simp [optTruthy]; split_ifs <;> omega
    | some c =>
        have hcpos : c ≠ 0 → 0 < c := fun h => hc c rfl
        simp only [optTruthy, Option.getD_some]
        split_ifs with ht hq hq <;> simp_all
  refine ⟨?_, ?_, hqpos e aq, ?_⟩
  · intro hq
    unfold defaultedQty requestedQty handlerItemQty defaultedQty
    simp [optTruthy]
    omega
  · intro c hc
    unfold handlerItemQty
    simp [optTruthy, hc]
  · intro es ms item hc hmem
    induction es generalizing ms with
    | nil => simp [buildPreviewItems] at hmem
    | cons e' es ih =>
        cases ms with
        | nil => simp [buildPreviewItems] at hmem
        | cons m ms =>
            rcases List.mem_cons.mp hmem with hhead | htail
            · rw [hhead]
              exact hqpos e' aq hc
            · exact ih ms htail

/-- C8 counterexample to the claim as stated: the pipeline on a single
in-stock medicine with `max_quantity_per_order = 0` and an unspecified
quantity produces a safety result whose cap is `some 0` and a non-REJECT
decision, yet the built line item keeps quantity 30 — not
`min 30 0 = 0` as the claim's "minimum of the requested quantity and that
cap" demands. -/
theorem quantity_cap_not_applied_cex :
    (SafetyAgent.evaluate [eQty0] [medCapZero] false).allowed_quantity = some 0 ∧
    (SafetyAgent.evaluate [eQty0] [medCapZero] false).decision ≠ SafetyDecision.REJECT ∧
    (buildPreviewItems [eQty0] [medCapZero]
        (SafetyAgent.evaluate [eQty0] [medCapZero] false).allowed_quantity).map
      OrderItem.quantity = [30] ∧
    min (30 : Int) 0 ≠ 30 := by
  decide

/-- Closed instance of `quantity_defaulting_and_cap` at `eQty0` with cap
`some 5`, hypotheses discharged by `decide`. -/
theorem quantity_defaulting_and_cap_witness :
    (eQty0.quantity ≤ 0 → defaultedQty eQty0 = 30 ∧ requestedQty (some eQty0) = 30 ∧
      handlerItemQty eQty0 none = 30) ∧
    (∀ c : Int, c ≠ 0 → handlerItemQty eQty0 (some c) = min (defaultedQty eQty0) c) ∧
    ((∀ c : Int, (some 5 : Option Int) = some c → 0 < c) →
      0 < handlerItemQty eQty0 (some 5)) ∧
    (∀ (es : List ExtractedEntity) (ms : List Medicine) (item : OrderItem),
      (∀ c : Int, (some 5 : Option Int) = some c → 0 < c) →
      item ∈ buildPreviewItems es ms (some 5) → 0 < item.quantity) :=
  quantity_defaulting_and_cap eQty0 (some 5)

/-! ### Claim C4: refill classification as a function of days remaining -/

/-- C4: refill classification depends only on `days_remaining`:
`≤ 0 ↦ BLOCK/CRITICAL`, `1-3 ↦ REMIND/HIGH`, `4-7 ↦ AUTO_REFILL/MEDIUM`,
`8-14 ↦ REMIND/LOW`, and a record with more than 14 days remaining yields no
prediction; over any history, exactly the records with at most 14 days
remaining produce predictions. -/
theorem refill_classification (pid pname : String) (rec : MedRecord) :
    (rec.days_remaining ≤ 0 →
      (RefillAgent.predict pid pname [rec]).map (fun p => (p.action, p.urgency)) =
        [(RefillAction.BLOCK, "CRITICAL")]) ∧
    (1 ≤ rec.days_remaining → rec.days_remaining ≤ 3 →
      (RefillAgent.predict pid pname [rec]).map (fun p => (p.action, p.urgency)) =
        [(RefillAction.REMIND, "HIGH")]) ∧
    (4 ≤ rec.days_remaining → rec.days_remaining ≤ 7 →
      (RefillAgent.predict pid pname [rec]).map (fun p => (p.action, p.urgency)) =
        [(RefillAction.AUTO_REFILL, "MEDIUM")]) ∧
    (8 ≤ rec.days_remaining → rec.days_remaining ≤ 14 →
      (RefillAgent.predict pid pname [rec]).map (fun p => (p.action, p.urgency)) =
        [(RefillAction.REMIND, "LOW")]) ∧
    (14 < rec.days_remaining → RefillAgent.predict pid pname [rec] = []) ∧
    (∀ hist : List MedRecord,
      (RefillAgent.predict pid pname hist).length =
        (hist.filter fun r => r.days_remaining ≤ 14).length) := by
  refine ⟨?_, ?_, ?_, ?_, ?_, ?_⟩
  · intro h
    simp [RefillAgent.predict, classifyRefill, h]
  · intro h1 h2
    have h0 : ¬rec.days_remaining ≤ 0 := by omega
    simp [RefillAgent.predict, classifyRefill, h0, h2]
  · intro h1 h2
    have h0 : ¬rec.days_remaining ≤ 0 := by omega
    have h3 : ¬rec.days_remaining ≤ 3 := by omega
    simp [RefillAgent.predict, classifyRefill, h0, h3, h2]
  · intro h1 h2
    have h0 : ¬rec.days_remaining ≤ 0 := by omega
    have h3 : ¬rec.days_remaining ≤ 3 := by omega
    have h7 : ¬rec.days_remaining ≤ 7 := by omega
    simp [RefillAgent.predict, classifyRefill, h0, h3, h7, h2]
  · intro h
    have h0 : ¬rec.days_remaining ≤ 0 := by omega
    have h3 : ¬rec.days_remaining ≤ 3 := by omega
    have h7 : ¬rec.days_remaining ≤ 7 := by omega
    have h14 : ¬rec.days_remaining ≤ 14 := by omega
    simp [RefillAgent.predict, classifyRefill, h0, h3, h7, h14]
  · intro hist
    induction hist with
    | nil => simp [RefillAgent.predict]
    | cons r hs ih =>
        by_cases hr : r.days_remaining ≤ 14
        · have hsome : ∃ v, classifyRefill r.days_remaining pname = some v := by
            unfold classifyRefill
            split_ifs with a b c
            · exact ⟨_, rfl⟩
            · exact ⟨_, rfl⟩
            · exact ⟨_, rfl⟩
            · exact ⟨_, rfl⟩
          obtain ⟨v, hv⟩ := hsome
          simp only [RefillAgent.predict] at ih ⊢
          simp [List.filterMap_cons, hv, List.filter_cons, hr, ih]
        · have hnone : classifyRefill r.days_remaining pname = none := by
            unfold classifyRefill
            split_ifs <;> first | rfl | omega
          simp only [RefillAgent.predict] at ih ⊢
          simp [List.filterMap_cons, hnone, List.filter_cons, hr, ih]

/-- Closed instance of `refill_classification`: the concrete inputs
-5, 0, 2, 5, 10 and 15 map to BLOCK/CRITICAL, BLOCK/CRITICAL, REMIND/HIGH,
AUTO_REFILL/MEDIUM, REMIND/LOW and no prediction respectively. -/
theorem refill_classification_witness :
    ((recDays (-5)).days_remaining ≤ 0 ∧
      (RefillAgent.predict "PAT-001" "Alice" [recDays (-5)]).map
        (fun p => (p.action, p.urgency)) = [(RefillAction.BLOCK, "CRITICAL")]) ∧
    ((recDays 0).days_remaining ≤ 0 ∧
      (RefillAgent.predict "PAT-001" "Alice" [recDays 0]).map
        (fun p => (p.action, p.urgency)) = [(RefillAction.BLOCK, "CRITICAL")]) ∧
    (1 ≤ (recDays 2).days_remaining ∧ (recDays 2).days_remaining ≤ 3 ∧
      (RefillAgent.predict "PAT-001" "Alice" [recDays 2]).map
        (fun p => (p.action, p.urgency)) = [(RefillAction.REMIND, "HIGH")]) ∧
    (4 ≤ (recDays 5).days_remaining ∧ (recDays 5).days_remaining ≤ 7 ∧
      (RefillAgent.predict "PAT-001" "Alice" [recDays 5]).map
        (fun p => (p.action, p.urgency)) = [(RefillAction.AUTO_REFILL, "MEDIUM")]) ∧
    (8 ≤ (recDays 10).days_remaining ∧ (recDays 10).days_remaining ≤ 14 ∧
      (RefillAgent.predict "PAT-001" "Alice" [recDays 10]).map
        (fun p => (p.action, p.urgency)) = [(RefillAction.REMIND, "LOW")]) ∧
    (14 < (recDays 15).days_remaining ∧
      RefillAgent.predict "PAT-001" "Alice" [recDays 15] = []) :=
  ⟨⟨by decide, (refill_classification "PAT-001" "Alice" (recDays (-5))).1 (by decide)⟩,
   ⟨by decide, (refill_classification "PAT-001" "Alice" (recDays 0)).1 (by decide)⟩,
   ⟨by decide, by decide,
    (refill_classification "PAT-001" "Alice" (recDays 2)).2.1 (by decide) (by decide)⟩,
   ⟨by decide, by decide,
    (refill_classification "PAT-001" "Alice" (recDays 5)).2.2.1 (by decide) (by decide)⟩,
   ⟨by decide, by decide,
    (refill_classification "PAT-001" "Alice" (recDays 10)).2.2.2.1 (by decide) (by decide)⟩,
   ⟨by decide,
    (refill_classification "PAT-001" "Alice" (recDays 15)).2.2.2.2.1 (by decide)⟩⟩

/-! ### Claim C5: receipt arithmetic -/

/-- C5: for every order, the receipt's tax is 5% of the subtotal rounded to
two decimals, the delivery fee is exactly 2.00, and the grand total is
subtotal + tax + delivery fee rounded to two decimals, with each component
rounded independently before the final sum; in particular a subtotal of
100.00 yields tax 5.00, delivery 2.00 and grand total 107.00. -/
theorem receipt_arithmetic (order : Order) :
    (FulfillmentAgent.generate_receipt order).tax =
      round2 (order.total_amount * (5/100)) ∧
    (FulfillmentAgent.generate_receipt order).delivery_fee = 2 ∧
    (FulfillmentAgent.generate_receipt order).grand_total =
      round2 (order.total_amount + (FulfillmentAgent.generate_receipt order).tax +
        (FulfillmentAgent.generate_receipt order).delivery_fee) ∧
    (FulfillmentAgent.generate_receipt order).subtotal = order.total_amount ∧
    (FulfillmentAgent.generate_receipt sampleOrder100).tax = 5 ∧
    (FulfillmentAgent.generate_receipt sampleOrder100).delivery_fee = 2 ∧
    (FulfillmentAgent.generate_receipt sampleOrder100).grand_total = 107 := by
  refine ⟨rfl, rfl, rfl, rfl, ?_, rfl, ?_⟩
  · norm_num [FulfillmentAgent.generate_receipt, sampleOrder100, round2,
      roundHalfEven, ratFloor]
  · norm_num [FulfillmentAgent.generate_receipt, sampleOrder100, round2,
      roundHalfEven, ratFloor]

/-! ### Association-list lemmas -/

theorem alookup_aupdate_self {α : Type} (k : String) (v : α)
    (l : List (String × α)) (w : α) (h : alookup k l = some w) :
    alookup k (aupdate k v l) = some v := by
  induction l with
  | nil => simp [alookup] at h
  | cons kv rest ih =>
      by_cases hk : kv.1 = k
      · simp [alookup, aupdate, hk]
      · simp only [alookup, aupdate, hk, if_false, if_neg hk] at h ⊢
        exact ih h

theorem alookup_aupdate_ne {α : Type} (k k' : String) (v : α)
    (l : List (String × α)) (h : k' ≠ k) :
    alookup k' (aupdate k v l) = alookup k' l := by
  induction l with
  | nil => rfl
  | cons kv rest ih =>
      by_cases hk : kv.1 = k
      · have hkk : ¬(k = k') := fun he => h he.symm
        simp [alookup, aupdate, hk, hkk]
      · by_cases hk' : kv.1 = k'
        · simp [alookup, aupdate, hk, hk', h]
        · simp only [alookup, aupdate, hk, if_neg hk, if_neg hk']
          exact ih

theorem alookup_append_of_none {α : Type} (k : String)
    (l₁ l₂ : List (String × α)) (h : alookup k l₁ = none) :
    alookup k (l₁ ++ l₂) = alookup k l₂ := by
  induction l₁ with
  | nil => rfl
  | cons kv rest ih =>
      by_cases hk : kv.1 = k
      · simp [alookup, hk] at h
      · simp only [alookup, List.cons_append, if_neg hk] at h ⊢
        exact ih h

theorem alookup_append_of_some {α : Type} (k : String)
    (l₁ l₂ : List (String × α)) (w : α) (h : alookup k l₁ = some w) :
    alookup k (l₁ ++ l₂) = some w := by
  induction l₁ with
  | nil => simp [alookup] at h
  | cons kv rest ih =>
      by_cases hk : kv.1 = k
      · simp only [alookup, List.cons_append, if_pos hk] at h ⊢
        exact h
      · simp only [alookup, List.cons_append, if_neg hk] at h ⊢
        exact ih h

theorem alookup_aappend_self {α : Type} (k : String) (v : α)
    (l : List (String × List α)) :
    alookup k (aappend k v l) = some ((alookup k l).getD [] ++ [v]) := by
  unfold aappend
  cases h : alookup k l with
  | none =>
      rw [alookup_append_of_none k l _ h]
      simp [alookup]
  | some vs =>
      simpa using alookup_aupdate_self k (vs ++ [v]) l vs h

theorem alookup_aappend_ne {α : Type} (k k' : String) (v : α)
    (l : List (String × List α)) (h : k' ≠ k) :
    alookup k' (aappend k v l) = alookup k' l := by
  unfold aappend
  cases hx : alookup k l with
  | none =>
      cases hy : alookup k' l with
      | none =>
          rw [alookup_append_of_none k' l _ hy]
          have hkk : ¬(k = k') := fun he => h he.symm
          simp [alookup, hkk]
      | some w => rw [alookup_append_of_some k' l _ w hy]
  | some vs => exact alookup_aupdate_ne k k' (vs ++ [v]) l h

theorem alookup_aerase_self {α : Type} (k : String) (l : List (String × α)) :
    alookup k (aerase k l) = none := by
  induction l with
  | nil => rfl
  | cons kv rest ih =>
      by_cases hk : kv.1 = k
      · simpa [aerase, hk] using ih
      · simpa [aerase, alookup, hk] using ih

theorem alookup_aerase_ne {α : Type} (k k' : String) (l : List (String × α))
    (h : k' ≠ k) : alookup k' (aerase k l) = alookup k' l := by
  induction l with
  | nil => rfl
  | cons kv rest ih =>
      by_cases hk : kv.1 = k
      · have hk' : ¬(kv.1 = k') := by rw [hk]; exact fun he => h he.symm
        simp only [aerase, alookup, if_pos hk, if_neg hk']
        exact ih
      · simp only [aerase, alookup, if_neg hk]
        by_cases hk' : kv.1 = k'
        · simp [alookup, hk']
        · simp only [alookup, if_neg hk']
          exact ih

/-! ### Claim C6: confirming a non-pending order -/

/-- C6: confirming an existing order whose status is not PENDING returns an
HTTP 400 invalid-state error and leaves the whole store — order statuses,
status history, inventory and the webhook queue — unchanged; any state change
(including scheduling the warehouse webhook) can only happen for an order
that exists with status PENDING. -/
theorem confirm_endpoint_invalid_state (st : StoreState) (order_id : String)
    (now : Nat) :
    (∀ o : Order, alookup order_id st.ful.orders = some o →
      o.status ≠ OrderStatus.PENDING →
      confirmOrderEndpoint order_id now st =
        (.httpError 400 ("Order is not pending. Current status: " ++ o.status.value),
          st)) ∧
    (alookup order_id st.ful.orders = none →
      confirmOrderEndpoint order_id now st = (.httpError 404 "Order not found", st)) ∧
    ((confirmOrderEndpoint order_id now st).2 ≠ st →
      ∃ o : Order, alookup order_id st.ful.orders = some o ∧
        o.status = OrderStatus.PENDING) := by
  refine ⟨?_, ?_, ?_⟩
  · intro o ho hstat
    unfold confirmOrderEndpoint
    rw [ho]
    simp [hstat]
  · intro ho
    unfold confirmOrderEndpoint
    rw [ho]
  · intro hchange
    unfold confirmOrderEndpoint at hchange
    cases ho : alookup order_id st.ful.orders with
    | none => rw [ho] at hchange; simp at hchange
    | some o =>
        rw [ho] at hchange
        by_cases hstat : o.status = OrderStatus.PENDING
        · exact ⟨o, rfl, hstat⟩
        · simp [hstat] at hchange

/-- Closed instance of `confirm_endpoint_invalid_state`: confirming the
CANCELLED order returns the 400 error and the untouched store. -/
theorem confirm_endpoint_invalid_state_witness :
    alookup "ORD-20240101-CANCEL" storeWithCancelled.ful.orders = some cancelledOrder ∧
    cancelledOrder.status ≠ OrderStatus.PENDING ∧
    confirmOrderEndpoint "ORD-20240101-CANCEL" 0 storeWithCancelled =
      (.httpError 400
        ("Order is not pending. Current status: " ++ cancelledOrder.status.value),
        storeWithCancelled) :=
  ⟨rfl, by decide,
    (confirm_endpoint_invalid_state storeWithCancelled "ORD-20240101-CANCEL" 0).1
      cancelledOrder rfl (by decide)⟩

/-! ### Claim C9: the warehouse webhook never fails the caller -/

/-- C9: the warehouse-webhook call returns normally on every outcome (it is a
total function of the response); a non-200 status code or a network error
changes no state at all, and exactly on a 200 response the order's status is
set to PROCESSING and a "Dispatched" timeline event is appended. -/
theorem webhook_failure_swallowed (order : Order) (now : Nat)
    (f : FulfillmentState) :
    (∀ code : Nat, code ≠ 200 →
      FulfillmentAgent.trigger_warehouse_webhook order (.status code) now f = f) ∧
    (FulfillmentAgent.trigger_warehouse_webhook order .netError now f = f) ∧
    (∀ o : Order, alookup order.order_id f.orders = some o →
      alookup order.order_id
          (FulfillmentAgent.trigger_warehouse_webhook order (.status 200) now f).orders =
        some { o with status := OrderStatus.PROCESSING, updated_at := now } ∧
      getEvents order.order_id
          (FulfillmentAgent.trigger_warehouse_webhook order (.status 200) now f) =
        getEvents order.order_id f ++
          [⟨"System", "Dispatched", "Package dispatched from warehouse", "completed", now⟩]) := by
  refine ⟨?_, ?_, ?_⟩
  · intro code hcode
    unfold FulfillmentAgent.trigger_warehouse_webhook
    simp [hcode]
  · rfl
  · intro o ho
    unfold FulfillmentAgent.trigger_warehouse_webhook
    dsimp only
    rw [if_pos rfl]
    unfold FulfillmentAgent.update_order_status
    rw [ho]
    unfold FulfillmentAgent.add_event getEvents
    dsimp only
    refine ⟨?_, ?_⟩
    · exact alookup_aupdate_self order.order_id _ f.orders o ho
    · rw [alookup_aappend_self]
      simp

/-- Closed instance of `webhook_failure_swallowed`: a 500 response and a
network error leave the store alone; a 200 response advances the pending
order and appends the Dispatched event. -/
theorem webhook_failure_swallowed_witness :
    ((500 : Nat) ≠ 200 ∧
      FulfillmentAgent.trigger_warehouse_webhook cancelledOrder (.status 500) 7
        storeWithCancelled.ful = storeWithCancelled.ful) ∧
    (FulfillmentAgent.trigger_warehouse_webhook cancelledOrder .netError 7
        storeWithCancelled.ful = storeWithCancelled.ful) ∧
    (alookup cancelledOrder.order_id storeWithCancelled.ful.orders = some cancelledOrder ∧
      alookup cancelledOrder.order_id
          (FulfillmentAgent.trigger_warehouse_webhook cancelledOrder (.status 200) 7
            storeWithCancelled.ful).orders =
        some { cancelledOrder with status := OrderStatus.PROCESSING, updated_at := 7 } ∧
      getEvents cancelledOrder.order_id
          (FulfillmentAgent.trigger_warehouse_webhook cancelledOrder (.status 200) 7
            storeWithCancelled.ful) =
        getEvents cancelledOrder.order_id storeWithCancelled.ful ++
          [⟨"System", "Dispatched", "Package dispatched from warehouse", "completed", 7⟩]) :=
  ⟨⟨by decide,
    (webhook_failure_swallowed cancelledOrder 7 storeWithCancelled.ful).1 500 (by decide)⟩,
   (webhook_failure_swallowed cancelledOrder 7 storeWithCancelled.ful).2.1,
   by
    refine ⟨rfl, ?_⟩
    exact (webhook_failure_swallowed cancelledOrder 7 storeWithCancelled.ful).2.2
      cancelledOrder rfl⟩

/-! ### Claim C10: stock updates never go negative -/

/-- C10: for a known medicine id, `update_stock` returns `True` and sets the
new level to `max(0, old - quantity_sold)` — never negative — while leaving
every other id's stock unchanged; for an unknown id it returns `False` and
leaves the table unchanged. -/
theorem update_stock_clamps (stock : List (String × Int)) (mid : String)
    (qty : Int) :
    (∀ old : Int, alookup mid stock = some old →
      (DataService.update_stock mid qty stock).1 = true ∧
      alookup mid (DataService.update_stock mid qty stock).2 =
        some (max 0 (old - qty)) ∧
      0 ≤ max 0 (old - qty) ∧
      (∀ k : String, k ≠ mid →
        alookup k (DataService.update_stock mid qty stock).2 = alookup k stock)) ∧
    (alookup mid stock = none →
      DataService.update_stock mid qty stock = (false, stock)) := by
  constructor
  · intro old hold
    unfold DataService.update_stock
    rw [hold]
    refine ⟨rfl, ?_, le_max_left 0 _, ?_⟩
    · exact alookup_aupdate_self mid _ stock old hold
    · intro k hk
      exact alookup_aupdate_ne mid k _ stock hk
  · intro hnone
    unfold DataService.update_stock
    rw [hnone]

/-- Closed instance of `update_stock_clamps`: selling 80 units out of a stock
of 50 clamps the level to 0 and returns `True`; an unknown id returns
`False` with the table unchanged. -/
theorem update_stock_clamps_witness :
    (alookup "MED-001" storeWithCancelled.stock = some 50 ∧
      (DataService.update_stock "MED-001" 80 storeWithCancelled.stock).1 = true ∧
      alookup "MED-001" (DataService.update_stock "MED-001" 80 storeWithCancelled.stock).2 =
        some (max 0 (50 - 80)) ∧
      0 ≤ max 0 ((50 : Int) - 80)) ∧
    (alookup "MED-999" storeWithCancelled.stock = none ∧
      DataService.update_stock "MED-999" 80 storeWithCancelled.stock =
        (false, storeWithCancelled.stock)) :=
  ⟨⟨rfl,
    ((update_stock_clamps storeWithCancelled.stock "MED-001" 80).1 50 rfl).1,
    ((update_stock_clamps storeWithCancelled.stock "MED-001" 80).1 50 rfl).2.1,
    ((update_stock_clamps storeWithCancelled.stock "MED-001" 80).1 50 rfl).2.2.1⟩,
   ⟨by decide,
    (update_stock_clamps storeWithCancelled.stock "MED-999" 80).2 (by decide)⟩⟩

/-! ### Helper lemmas for the session-preview invariant -/

theorem mem_aerase {α : Type} {k : String} {kv : String × α}
    {l : List (String × α)} (h : kv ∈ aerase k l) : kv ∈ l := by
  induction l with
  | nil => cases h
  | cons kv' rest ih =>
      by_cases hk : kv'.1 = k
      · rw [aerase, if_pos hk] at h
        exact List.mem_cons_of_mem kv' (ih h)
      · rw [aerase, if_neg hk] at h
        rcases List.mem_cons.mp h with rfl | hm
        · exact List.mem_cons_self kv rest
        · exact List.mem_cons_of_mem kv' (ih hm)

theorem key_ne_of_mem_aerase {α : Type} {k : String} {kv : String × α}
    {l : List (String × α)} (h : kv ∈ aerase k l) : kv.1 ≠ k := by
  induction l with
  | nil => cases h
  | cons kv' rest ih =>
      by_cases hk : kv'.1 = k
      · rw [aerase, if_pos hk] at h
        exact ih h
      · rw [aerase, if_neg hk] at h
        rcases List.mem_cons.mp h with rfl | hm
        · exact hk
        · exact ih hm

theorem mem_keys_aerase {α : Type} {k x : String} {l : List (String × α)}
    (h : x ∈ (aerase k l).map Prod.fst) : x ∈ l.map Prod.fst := by
  rcases List.mem_map.mp h with ⟨kv, hkv, rfl⟩
  exact List.mem_map.mpr ⟨kv, mem_aerase hkv, rfl⟩

theorem keysNodup_aerase {α : Type} (k : String) (l : List (String × α))
    (h : keysNodup l) : keysNodup (aerase k l) := by
  induction l with
  | nil => exact h
  | cons kv rest ih =>
      rw [keysNodup, List.map_cons, List.nodup_cons] at h
      by_cases hk : kv.1 = k
      · rw [keysNodup, aerase, if_pos hk]
        exact ih h.2
      · rw [keysNodup, aerase, if_neg hk, List.map_cons, List.nodup_cons]
        exact ⟨fun hm => h.1 (mem_keys_aerase hm), ih h.2⟩

theorem keysNodup_ainsert {α : Type} (k : String) (v : α)
    (l : List (String × α)) (h : keysNodup l) : keysNodup (ainsert k v l) := by
  rw [keysNodup, ainsert, List.map_cons, List.nodup_cons]
  refine ⟨?_, keysNodup_aerase k l h⟩
  intro hm
  rcases List.mem_map.mp hm with ⟨kv, hkv, hfst⟩
  exact key_ne_of_mem_aerase hkv hfst

theorem alookup_some_mem {α : Type} {k : String} {v : α}
    {l : List (String × α)} (h : alookup k l = some v) : (k, v) ∈ l := by
  induction l with
  | nil => simp [alookup] at h
  | cons kv rest ih =>
      by_cases hk : kv.1 = k
      · rw [alookup, if_pos hk] at h
        have : kv = (k, v) := by
          cases kv
          cases h
          rw [← hk]
        rw [← this]
        exact List.mem_cons_self kv rest
      · rw [alookup, if_neg hk] at h
        exact List.mem_cons_of_mem kv (ih h)

theorem alookup_none_key_ne {α : Type} {k : String} {l : List (String × α)}
    (h : alookup k l = none) : ∀ kv ∈ l, kv.1 ≠ k := by
  induction l with
  | nil => intro kv hkv; cases hkv
  | cons kv' rest ih =>
      intro kv hkv
      by_cases hk : kv'.1 = k
      · rw [alookup, if_pos hk] at h
        cases h
      · rw [alookup, if_neg hk] at h
        rcases List.mem_cons.mp hkv with rfl | hm
        · exact hk
        · exact ih h kv hm

theorem value_eq_of_alookup_nodup {k pid : String} {l : List (String × String)}
    (hnd : keysNodup l) (h : alookup k l = some pid) :
    ∀ kv ∈ l, kv.1 = k → kv.2 = pid := by
  induction l with
  | nil => intro kv hkv; cases hkv
  | cons kv' rest ih =>
      rw [keysNodup, List.map_cons, List.nodup_cons] at hnd
      intro kv hkv hkey
      by_cases hk : kv'.1 = k
      · rw [alookup, if_pos hk] at h
        rcases List.mem_cons.mp hkv with rfl | hm
        · cases h; rfl
        · have hmm : kv'.1 ∈ rest.map Prod.fst := by
            rw [hk, ← hkey]
            exact List.mem_map.mpr ⟨kv, hm, rfl⟩
          exact absurd hmm hnd.1
      · rw [alookup, if_neg hk] at h
        rcases List.mem_cons.mp hkv with rfl | hm
        · exact absurd hkey hk
        · exact ih hnd.2 h kv hm hkey

theorem filter_length_zero {α : Type} (p : α → Bool) (l : List α)
    (h : ∀ a ∈ l, p a = false) : (l.filter p).length = 0 := by
  induction l with
  | nil => rfl
  | cons a rest ih =>
      rw [List.filter_cons, h a (List.mem_cons_self a rest)]
      exact ih fun a' ha' => h a' (List.mem_cons_of_mem a ha')

theorem filter_key_length_le_one (s : String) (l : List (String × String))
    (hnd : keysNodup l) (p : String × String → Bool) :
    (l.filter fun kv => kv.1 == s && p kv).length ≤ 1 := by
  induction l with
  | nil => simp
  | cons kv rest ih =>
      rw [keysNodup, List.map_cons, List.nodup_cons] at hnd
      rw [List.filter_cons]
      by_cases hp : (kv.1 == s && p kv) = true
      · rw [hp]
        have hz : (rest.filter fun kv' => kv'.1 == s && p kv').length = 0 := by
          refine filter_length_zero _ rest ?_
          intro kv' hkv'
          cases hs' : kv'.1 == s with
          | false => simp [hs']
          | true =>
              exfalso
              have hks : kv.1 = s := by
                have := hp
                rw [Bool.and_eq_true, beq_iff_eq] at this
                exact this.1
              have hks' : kv'.1 = s := beq_iff_eq.mp hs'
              exact hnd.1 (hks ▸ hks' ▸ List.mem_map.mpr ⟨kv', hkv', rfl⟩)
        simp [List.length_cons, hz]
      · rw [Bool.not_eq_true] at hp
        rw [hp]
        exact ih hnd.2

theorem prvId_ne_empty (suffix : String) : generatePreviewId suffix ≠ "" := by
  intro h
  have h4 : (generatePreviewId suffix).length = ("" : String).length := by rw [h]
  rw [generatePreviewId, String.length_append] at h4
  have hp : ("PRV-" : String).length = 4 := by decide
  have he : ("" : String).length = 0 := by decide
  omega

theorem inv_applyOp (st : PharmacyState) (op : OrchOp) (h : OrchInv st) :
    OrchInv (applyOp st op) := by
  obtain ⟨h1, h2, h3⟩ := h
  cases op with
  | orderNoop => exact ⟨h1, h2, h3⟩
  | order s suf p =>
      simp only [applyOp, handleOrderStore]
      refine ⟨keysNodup_ainsert _ _ _ h1, ?_, ?_⟩
      · intro kv hkv
        rcases List.mem_cons.mp hkv with rfl | hm
        · exact prvId_ne_empty suf
        · exact h2 kv (mem_aerase hm)
      · intro kv hkv
        rcases List.mem_cons.mp hkv with rfl | hm
        · exact prvId_ne_empty suf
        · exact h3 kv (mem_aerase hm)
  | confirm s pa oid now wres =>
      simp only [applyOp, handleOrderConfirmation]
      cases hs : alookup s st.sessionContexts with
      | none => exact ⟨h1, h2, h3⟩
      | some pid =>
          dsimp only
          by_cases hpe : pid = ""
          · rw [if_pos hpe]
            exact ⟨h1, h2, h3⟩
          · rw [if_neg hpe]
            cases hpv : alookup pid st.pendingPreviews with
            | none => exact ⟨h1, h2, h3⟩
            | some preview =>
                refine ⟨keysNodup_aerase _ _ h1, ?_, ?_⟩
                · intro kv hkv
                  exact h2 kv (mem_aerase hkv)
                · intro kv hkv
                  exact h3 kv (mem_aerase hkv)
  | cancel s =>
      simp only [applyOp, handleOrderCancellation]
      cases hs : alookup s st.sessionContexts with
      | none =>
          rw [hs]
          exact ⟨h1, h2, h3⟩
      | some pid =>
          dsimp only
          by_cases hc : pid ≠ "" ∧ (alookup pid st.pendingPreviews).isSome
          · rw [if_pos hc]
            dsimp only
            rw [hs]
            refine ⟨keysNodup_aerase _ _ h1, ?_, ?_⟩
            · intro kv hkv
              exact h2 kv (mem_aerase hkv)
            · intro kv hkv
              exact h3 kv (mem_aerase hkv)
          · rw [if_neg hc]
            rw [hs]
            refine ⟨keysNodup_aerase _ _ h1, ?_, h3⟩
            intro kv hkv
            exact h2 kv (mem_aerase hkv)

theorem inv_foldl (ops : List OrchOp) :
    ∀ st : PharmacyState, OrchInv st → OrchInv (ops.foldl applyOp st) := by
  induction ops with
  | nil => exact fun st h => h
  | cons op rest ih => exact fun st h => ih _ (inv_applyOp st op h)

theorem inv_applyOps (ops : List OrchOp) : OrchInv (applyOps ops) :=
  inv_foldl ops emptyPharmacy
    ⟨List.nodup_nil, fun kv hkv => absurd hkv (List.not_mem_nil kv),
      fun kv hkv => absurd hkv (List.not_mem_nil kv)⟩

theorem session_preview_facts (st : PharmacyState) (hinv : OrchInv st)
    (s : String) :
    liveCount s st ≤ 1 ∧
    (∀ (pa : Patient) (oid : String) (now : Nat) (wres : WebhookResult),
      liveCount s (applyOp st (.confirm s pa oid now wres)) = 0) ∧
    liveCount s (applyOp st (.cancel s)) = 0 ∧
    (∀ (pid : String) (pa : Patient) (oid : String) (now : Nat)
        (wres : WebhookResult),
      alookup s st.sessionContexts = some pid →
      (alookup pid st.pendingPreviews).isSome = true →
      alookup s (applyOp st (.confirm s pa oid now wres)).sessionContexts = none ∧
      alookup pid (applyOp st (.confirm s pa oid now wres)).pendingPreviews = none) ∧
    (∀ pid : String,
      alookup s st.sessionContexts = some pid →
      alookup s (applyOp st (.cancel s)).sessionContexts = none ∧
      alookup pid (applyOp st (.cancel s)).pendingPreviews = none) := by
  obtain ⟨h1, h2, h3⟩ := hinv
  refine ⟨?_, ?_, ?_, ?_, ?_⟩
  · unfold liveCount
    exact filter_key_length_le_one s st.sessionContexts h1 _
  · intro pa oid now wres
    simp only [applyOp, handleOrderConfirmation]
    cases hs : alookup s st.sessionContexts with
    | none =>
        unfold liveCount
        refine filter_length_zero _ _ ?_
        intro kv hkv
        have hne := alookup_none_key_ne hs kv hkv
        cases hb : kv.1 == s with
        | false => simp [hb]
        | true => exact absurd (beq_iff_eq.mp hb) hne
    | some pid =>
        have hpe : pid ≠ "" := h2 (s, pid) (alookup_some_mem hs)
        dsimp only
        rw [if_neg hpe]
        cases hpv : alookup pid st.pendingPreviews with
        | none =>
            unfold liveCount
            refine filter_length_zero _ _ ?_
            intro kv hkv
            cases hb : kv.1 == s with
            | false => simp [hb]
            | true =>
                have hv := value_eq_of_alookup_nodup h1 hs kv hkv (beq_iff_eq.mp hb)
                simp [hb, hv, hpv]
        | some preview =>
            unfold liveCount
            dsimp only
            refine filter_length_zero _ _ ?_
            intro kv hkv
            have hne := key_ne_of_mem_aerase hkv
            cases hb : kv.1 == s with
            | false => simp [hb]
            | true => exact absurd (beq_iff_eq.mp hb) hne
  · simp only [applyOp, handleOrderCancellation]
    cases hs : alookup s st.sessionContexts with
    | none =>
        rw [hs]
        rw [if_neg (by simp)]
        unfold liveCount
        refine filter_length_zero _ _ ?_
        intro kv hkv
        have hne := alookup_none_key_ne hs kv hkv
        cases hb : kv.1 == s with
        | false => simp [hb]
        | true => exact absurd (beq_iff_eq.mp hb) hne
    | some pid =>
        dsimp only
        by_cases hc : pid ≠ "" ∧ (alookup pid st.pendingPreviews).isSome
        · rw [if_pos hc]
          dsimp only
          rw [hs, if_pos (show (some pid).isSome = true from rfl)]
          unfold liveCount
          refine filter_length_zero _ _ ?_
          intro kv hkv
          have hne := key_ne_of_mem_aerase hkv
          cases hb : kv.1 == s with
          | false => simp [hb]
          | true => exact absurd (beq_iff_eq.mp hb) hne
        · rw [if_neg hc]
          rw [hs, if_pos (show (some pid).isSome = true from rfl)]
          unfold liveCount
          refine filter_length_zero _ _ ?_
          intro kv hkv
          have hne := key_ne_of_mem_aerase hkv
          cases hb : kv.1 == s with
          | false => simp [hb]
          | true => exact absurd (beq_iff_eq.mp hb) hne
  · intro pid pa oid now wres hs hpv
    have hpe : pid ≠ "" := h2 (s, pid) (alookup_some_mem hs)
    simp only [applyOp, handleOrderConfirmation]
    rw [hs]
    dsimp only
    rw [if_neg hpe]
    cases hpv2 : alookup pid st.pendingPreviews with
    | none => rw [hpv2] at hpv; cases hpv
    | some preview =>
        dsimp only
        exact ⟨alookup_aerase_self s _, alookup_aerase_self pid _⟩
  · intro pid hs
    have hpe : pid ≠ "" := h2 (s, pid) (alookup_some_mem hs)
    simp only [applyOp, handleOrderCancellation]
    rw [hs]
    dsimp only
    by_cases hps : (alookup pid st.pendingPreviews).isSome
    · have hcond : pid ≠ "" ∧ (alookup pid st.pendingPreviews).isSome = true :=
        ⟨hpe, hps⟩
      rw [if_pos hcond]
      dsimp only
      rw [hs, if_pos (show (some pid).isSome = true from rfl)]
      exact ⟨alookup_aerase_self s _, alookup_aerase_self pid _⟩
    · have hcond : ¬(pid ≠ "" ∧ (alookup pid st.pendingPreviews).isSome = true) :=
        fun hcc => hps hcc.2
      rw [if_neg hcond]
      rw [hs, if_pos (show (some pid).isSome = true from rfl)]
      exact ⟨alookup_aerase_self s _,
        Option.not_isSome_iff_eq_none.mp hps⟩

/-! ### Claim C3: at most one live preview per session -/

/-- C3: after any sequence of order, confirm and cancel handler invocations,
every session has at most one live preview; a confirm invocation always
leaves the session with zero live previews and, when a bound preview exists
(the successful case), removes both the session's preview-id binding and the
preview record; a cancel invocation does the same whenever a binding exists,
so after either operation the session has zero live previews. -/
theorem session_preview_invariant (ops : List OrchOp) (s : String) :
    liveCount s (applyOps ops) ≤ 1 ∧
    (∀ (pa : Patient) (oid : String) (now : Nat) (wres : WebhookResult),
      liveCount s (applyOp (applyOps ops) (.confirm s pa oid now wres)) = 0) ∧
    liveCount s (applyOp (applyOps ops) (.cancel s)) = 0 ∧
    (∀ (pid : String) (pa : Patient) (oid : String) (now : Nat)
        (wres : WebhookResult),
      alookup s (applyOps ops).sessionContexts = some pid →
      (alookup pid (applyOps ops).pendingPreviews).isSome = true →
      alookup s
          (applyOp (applyOps ops) (.confirm s pa oid now wres)).sessionContexts =
        none ∧
      alookup pid
          (applyOp (applyOps ops) (.confirm s pa oid now wres)).pendingPreviews =
        none) ∧
    (∀ pid : String,
      alookup s (applyOps ops).sessionContexts = some pid →
      alookup s (applyOp (applyOps ops) (.cancel s)).sessionContexts = none ∧
      alookup pid (applyOp (applyOps ops) (.cancel s)).pendingPreviews = none) :=
  session_preview_facts (applyOps ops) (inv_applyOps ops) s

/-- Closed instance of `session_preview_invariant` on the one-op run that
stores a preview for session "sess-1", discharging the hypotheses of the
confirm- and cancel-removal conjuncts at the bound preview id. -/
theorem session_preview_invariant_witness :
    liveCount "sess-1"
        (applyOps [OrchOp.order "sess-1" "AB12CD34" previewSample]) ≤ 1 ∧
    liveCount "sess-1"
        (applyOp (applyOps [OrchOp.order "sess-1" "AB12CD34" previewSample])
          (.confirm "sess-1" alicePatient "ORD-1" 3 (.status 200))) = 0 ∧
    liveCount "sess-1"
        (applyOp (applyOps [OrchOp.order "sess-1" "AB12CD34" previewSample])
          (.cancel "sess-1")) = 0 ∧
    (alookup "sess-1"
        (applyOps [OrchOp.order "sess-1" "AB12CD34" previewSample]).sessionContexts =
      some "PRV-AB12CD34" ∧
      (alookup "PRV-AB12CD34"
        (applyOps [OrchOp.order "sess-1" "AB12CD34" previewSample]).pendingPreviews).isSome =
      true ∧
      alookup "sess-1"
          (applyOp (applyOps [OrchOp.order "sess-1" "AB12CD34" previewSample])
            (.confirm "sess-1" alicePatient "ORD-1" 3 (.status 200))).sessionContexts =
        none ∧
      alookup "PRV-AB12CD34"
          (applyOp (applyOps [OrchOp.order "sess-1" "AB12CD34" previewSample])
            (.confirm "sess-1" alicePatient "ORD-1" 3 (.status 200))).pendingPreviews =
        none) ∧
    (alookup "sess-1"
        (applyOps [OrchOp.order "sess-1" "AB12CD34" previewSample]).sessionContexts =
      some "PRV-AB12CD34" ∧
      alookup "sess-1"
          (applyOp (applyOps [OrchOp.order "sess-1" "AB12CD34" previewSample])
            (.cancel "sess-1")).sessionContexts = none ∧
      alookup "PRV-AB12CD34"
          (applyOp (applyOps [OrchOp.order "sess-1" "AB12CD34" previewSample])
            (.cancel "sess-1")).pendingPreviews = none) := by
  have h := session_preview_invariant [OrchOp.order "sess-1" "AB12CD34" previewSample]
    "sess-1"
  have hconfirm := h.2.2.2.1 "PRV-AB12CD34" alicePatient "ORD-1" 3 (.status 200)
    (by decide) (by decide)
  have hcancel := h.2.2.2.2 "PRV-AB12CD34" (by decide)
  exact ⟨h.1, h.2.1 alicePatient "ORD-1" 3 (.status 200), h.2.2.1,
    ⟨by decide, by decide, hconfirm.1, hconfirm.2⟩,
    ⟨by decide, hcancel.1, hcancel.2⟩⟩

/-! ### Claim C7: confirm with no pending preview is a conversational no-op -/

/-- C7: a confirm-intent message on a session with no pending preview bound
to it — no session-context entry, or a stale preview id absent from the
preview store — returns the "nothing to confirm" conversational reply and
leaves the state untouched: no order is created, no stock is mutated, no
timeline event is appended (the returned state is identical), and no
exception is raised (the handler is a total function). -/
theorem confirm_without_preview_noop (st : PharmacyState) (s : String)
    (pa : Patient) (oid : String) (now : Nat) (wres : WebhookResult)
    (h : alookup s st.sessionContexts = none ∨
      ∃ pid : String, alookup s st.sessionContexts = some pid ∧
        alookup pid st.pendingPreviews = none) :
    handleOrderConfirmation s pa oid now wres st = (nothingToConfirmReply, st) := by
  unfold handleOrderConfirmation
  rcases h with hnone | ⟨pid, hs, hpv⟩
  · rw [hnone]
  · rw [hs]
    dsimp only
    by_cases hpe : pid = ""
    · rw [if_pos hpe]
    · rw [if_neg hpe, hpv]

/-- Closed instance of `confirm_without_preview_noop`: a confirm on the empty
state (no binding) and a confirm on a state whose binding is stale both
return the "nothing to confirm" reply with the state unchanged. -/
theorem confirm_without_preview_noop_witness :
    (alookup "sess-1" emptyPharmacy.sessionContexts = none ∨
      ∃ pid : String, alookup "sess-1" emptyPharmacy.sessionContexts = some pid ∧
        alookup pid emptyPharmacy.pendingPreviews = none) ∧
    handleOrderConfirmation "sess-1" alicePatient "ORD-1" 0 (.status 200)
        emptyPharmacy = (nothingToConfirmReply, emptyPharmacy) :=
  ⟨Or.inl rfl,
    confirm_without_preview_noop emptyPharmacy "sess-1" alicePatient "ORD-1" 0
      (.status 200) (Or.inl rfl)⟩

end PharmaAI
